import Mathlib

/-!
Verification of the call-session orchestration and conversational-turn
pipeline of the tgs-agent-be repository, shallowly embedded in Lean.

Conventions of the embedding:
* machine time (`datetime.utcnow()`) is passed explicitly as `now : Nat`
  (seconds); generated ids (`uuid.uuid4()`) are passed as explicit
  parameters; configuration reads (`settings.WEBHOOK_BASE_URL`) are
  passed as a `base_url : String` parameter;
* the database is a value: the `call_session` table is a
  `List CallSession`, the `agent` table a `List Agent`.  An attribute
  assignment on a loaded row marks the column dirty, so `db.commit()`
  persists it; an in-place `.append` on a plain `JSONB` list column is
  invisible to the session (the models use no mutable tracking), so the
  commit writes nothing for it and `db.refresh(...)` reloads the stored
  value, dropping the mutation;
* Python `float` values are rationals (`ℚ`); `float(str)` is
  `parseFloat?`, returning `none` for strings Python rejects with
  `ValueError`.  Only plain non-negative decimal literals (the forms the
  Twilio `Confidence` field takes) are accepted;
* Python exceptions are the inductive `PyExc`; a FastAPI handler whose
  `except` block re-raises is embedded as `Except PyExc _`, a handler
  whose `except` block returns a response is total;
* the OpenAI adapter is an explicit parameter: the handler records the
  request it would send (`ModelRequest`) and consumes a provided outcome
  `Except Unit (String × ℚ)` (reply text and elapsed seconds).
-/

/-- One entry of `CallSession.call_transcript`
(`{"timestamp": ..., "role": ..., "content": ...}`). -/
structure TranscriptEntry where
  timestamp : Nat
  role : String
  content : String
deriving Repr, DecidableEq

/-- One entry of `CallSession.response_times`
(`{"timestamp": ..., "response_time": ...}`). -/
structure ResponseTimeEntry where
  timestamp : Nat
  response_time : ℚ
deriving Repr, DecidableEq

/-- The `call_session` row (app/models/call_session.py).  Nullable columns
are `Option`; uuid columns are canonical-form strings. -/
structure CallSession where
  id : String
  user_id : String
  agent_id : String
  tenant_id : String
  start_time : Nat
  end_time : Option Nat
  status : String
  duration : Option Int
  call_transcript : Option (List TranscriptEntry)
  response_times : Option (List ResponseTimeEntry)
  twilio_call_sid : Option String
  from_number : Option String
  to_number : Option String
deriving Repr, DecidableEq

/-- The `agent` row (app/models/agent.py), restricted to the columns the
voice pipeline reads. -/
structure Agent where
  id : String
  tenant_id : String
  name : String
  system_prompt : Option String
  voice_type : Option String
  fallback_response : Option String
deriving Repr, DecidableEq

/-- Python truthiness of an optional string (`if s:`): `None` and the
empty string are falsy. -/
def pyTruthyStr (s : Option String) : Bool :=
  match s with
  | none => false
  | some v => v ≠ ""

/-- Python `o or d` for an optional string `o`: yields `d` when `o` is
`None` or empty. -/
def pyOrStr (o : Option String) (d : String) : String :=
  match o with
  | none => d
  | some v => if v = "" then d else v

/-- Hexadecimal digit test, used by the uuid-format check. -/
def isHexDigit (c : Char) : Bool :=
  c.isDigit || (Char.ofNat 97 ≤ c && c ≤ Char.ofNat 102) ||
    (Char.ofNat 65 ≤ c && c ≤ Char.ofNat 70)

/-- Splitting a character list on a separator character, the char-level
counterpart of Python `str.split(sep)`. -/
def splitOnChar (sep : Char) (cs : List Char) : List (List Char) :=
  match cs with
  | [] => [[]]
  | c :: rest =>
    let r := splitOnChar sep rest
    if c = sep then [] :: r
    else
      match r with
      | [] => [[c]]
      | h :: t => (c :: h) :: t

/-- Models acceptance by `uuid.UUID(s)`: the canonical 8-4-4-4-12
hex-with-dashes form.  (Python accepts a few more spellings; every
concrete string used below is either canonical or rejected by both.) -/
def isValidUUID (s : String) : Bool :=
  match splitOnChar (Char.ofNat 45) s.toList with
  | [a, b, c, d, e] =>
      a.length == 8 && b.length == 4 && c.length == 4 && d.length == 4 &&
      e.length == 12 && (a ++ b ++ c ++ d ++ e).all isHexDigit
  | _ => false

/-- Value of a digit string. -/
def digitsVal (cs : List Char) : Nat :=
  cs.foldl (fun a c => a * 10 + (c.toNat - 48)) 0

/-- Models Python `float(s)` on the plain decimal literals the Twilio
`Confidence` field carries; `none` models the `ValueError` Python raises
on other strings such as `"abc"` or `""`. -/
def parseFloat? (s : String) : Option ℚ :=
  match splitOnChar (Char.ofNat 46) s.toList with
  | [i] =>
      if i.length != 0 && i.all Char.isDigit then some (digitsVal i : ℚ) else none
  | [i, f] =>
      if (i.length + f.length != 0) && i.all Char.isDigit && f.all Char.isDigit then
        some ((digitsVal i : ℚ) + (digitsVal f : ℚ) / ((10 : ℚ) ^ f.length))
      else none
  | _ => none

/-- Python `s.startswith(pre)`. -/
def pyStartsWith (s pre : String) : Bool := pre.toList.isPrefixOf s.toList

/-- Last `n` characters of a string, Python `s[-n:]`. -/
def strTakeRight (s : String) (n : Nat) : String :=
  String.mk (s.toList.drop (s.toList.length - n))

/-- Lowercasing, Python `str.lower()` for the ASCII strings involved. -/
def strLower (s : String) : String := String.mk (s.toList.map Char.toLower)

/-- Containment of `w` as a contiguous sublist of `s`. -/
def listIsInfix (w s : List Char) : Bool :=
  w.isPrefixOf s ||
    match s with
    | [] => false
    | _ :: t => listIsInfix w t

/-- Python substring containment `w in s`. -/
def strContains (s w : String) : Bool := listIsInfix w.toList s.toList

/-- Python `any(word in s for word in ws)`. -/
def containsAny (s : String) (ws : List String) : Bool :=
  ws.any (fun w => strContains s w)

/-- Last `n` elements of a list, Python `l[-n:]` for `n > 0`. -/
def listTakeLast (l : List α) (n : Nat) : List α := l.drop (l.length - n)

/-- Lookup of a form field with a default, Python
`form_data.get(key, default)`. -/
def formGet (form : List (String × String)) (k d : String) : String :=
  match form.find? (fun p => p.fst == k) with
  | some p => p.snd
  | none => d

/-- Lookup of a request header, Python `request.headers.get(key)`. -/
def headerGet (headers : List (String × String)) (k : String) : Option String :=
  (headers.find? (fun p => p.fst == k)).map Prod.snd

/-- Python exceptions reachable in the embedded handlers. -/
inductive PyExc where
  | httpException (statusCode : Nat) (detail : String)
  | attributeError (msg : String)
deriving Repr, DecidableEq

instance {ε α : Type} [DecidableEq ε] [DecidableEq α] : DecidableEq (Except ε α) := fun a b =>
  match a, b with
  | .error e, .error f =>
      if h : e = f then isTrue (congrArg Except.error h)
      else isFalse (fun hh => h (Except.error.inj hh))
  | .ok x, .ok y =>
      if h : x = y then isTrue (congrArg Except.ok h)
      else isFalse (fun hh => h (Except.ok.inj hh))
  | .error _, .ok _ => isFalse (fun hh => Except.noConfusion hh)
  | .ok _, .error _ => isFalse (fun hh => Except.noConfusion hh)

/-- Python `str(e)` for the exceptions above (Starlette renders
`HTTPException` as `"<code>: <detail>"`). -/
def excStr : PyExc → String
  | .httpException c d => toString c ++ ": " ++ d
  | .attributeError m => m

/-- One TwiML instruction (`twilio.twiml.voice_response`): `say`,
`gather` for speech input, or `pause`.  Every `gather` the handlers
build nests exactly one `say`, carried here as `innerText`/`innerVoice`. -/
inductive Verb where
  | say (text : String) (voice : String)
  | gatherSpeech (timeout : Nat) (action : String) (innerText : String) (innerVoice : String)
  | pause (length : Nat)
deriving Repr, DecidableEq

/-- A webhook HTTP response: the TwiML document (`[]` for the empty body
`HTMLResponse("")`) and its media type. -/
structure WebResponse where
  body : List Verb
  media_type : String
deriving Repr, DecidableEq

/-- One message handed to the conversational model. -/
structure Message where
  role : String
  content : String
deriving Repr, DecidableEq

/-- One request crossing the model-adapter boundary
(`openai_service.process_agent_conversation`): the system prompt and the
ordered message list. -/
structure ModelRequest where
  system_prompt : String
  messages : List Message
deriving Repr, DecidableEq

/-! ### Call session store (app/services/call_session_service.py) -/

/-- `CallSessionService.get_call_session_by_id`. -/
def get_call_session_by_id (db : List CallSession) (sid : String) :
    Option CallSession :=
  db.find? (fun s => s.id == sid)

/-- `CallSessionService.get_call_session_by_twilio_sid`. -/
def get_call_session_by_twilio_sid (db : List CallSession) (callSid : String) :
    Option CallSession :=
  db.find? (fun s => s.twilio_call_sid == some callSid)

/-- Persisting a mutated row: every row with the same id takes the new
value (`db.commit()` on the mutated ORM object). -/
def storeUpdate (db : List CallSession) (s : CallSession) : List CallSession :=
  db.map (fun t => if t.id == s.id then s else t)

/-- `CallSessionService.create_call_session`: inserts a fresh `active`
session with empty transcript and response-time lists. -/
def create_call_session (db : List CallSession) (newId user_id agent_id tenant_id : String)
    (twilio_call_sid from_number to_number : Option String) (now : Nat) :
    List CallSession × CallSession :=
  let cs : CallSession :=
    { id := newId, user_id := user_id, agent_id := agent_id, tenant_id := tenant_id,
      start_time := now, end_time := none, status := "active", duration := none,
      call_transcript := some [], response_times := some [],
      twilio_call_sid := twilio_call_sid, from_number := from_number,
      to_number := to_number }
  (db ++ [cs], cs)

/-- `CallSessionService.update_call_session_status`: sets `status`
unconditionally; when the new status is terminal it also sets
`end_time = now` and `duration = int((end_time - start_time).total_seconds())`.
There is no already-terminal check and no status validation. -/
def update_call_session_status (db : List CallSession) (sid status : String)
    (now : Nat) : List CallSession × Option CallSession :=
  match get_call_session_by_id db sid with
  | none => (db, none)
  | some cs =>
    let cs1 := { cs with status := status }
    let cs2 :=
      if status ∈ ["completed", "failed", "busy"] then
        { cs1 with end_time := some now,
                   duration := some ((now : Int) - (cs.start_time : Int)) }
      else cs1
    (storeUpdate db cs2, some cs2)

/-- `CallSessionService.add_transcript_entry`.  The source mutates the
plain `JSONB` columns in place (`call_transcript.append(...)`); the
models use no `sqlalchemy.ext.mutable` wrapper and the repository never
calls `flag_modified`, so that mutation is invisible to the session:
`db.commit()` writes nothing for the column and `db.refresh(...)`
reloads the stored value, dropping the appended entry.  Only when the
column is `None` does the tracked `= []` initialisation mark it dirty,
in which case the flush serialises the list as mutated — with the one
appended entry.  The same holds for `response_times`.  Net effect: a
`None` column becomes a one-entry list; a non-`None` column (every
session this code creates starts at `[]`) is unchanged. -/
def add_transcript_entry (db : List CallSession) (sid role content : String)
    (response_time : Option ℚ) (now : Nat) : List CallSession × Option CallSession :=
  match get_call_session_by_id db sid with
  | none => (db, none)
  | some cs =>
    let t2 : Option (List TranscriptEntry) :=
      match cs.call_transcript with
      | none => some [⟨now, role, content⟩]
      | some t => some t
    let r2 : Option (List ResponseTimeEntry) :=
      match response_time with
      | none => cs.response_times
      | some rv =>
        match cs.response_times with
        | none => some [⟨now, rv⟩]
        | some r => some r
    let cs2 := { cs with call_transcript := t2, response_times := r2 }
    (storeUpdate db cs2, some cs2)

/-! ### Agent lookups -/

/-- `AgentService.get_agent_by_id`: lookup with tenant isolation. -/
def get_agent_by_id (agents : List Agent) (agent_id tenant_id : String) :
    Option Agent :=
  agents.find? (fun a => a.id == agent_id && a.tenant_id == tenant_id)

/-- `db.query(Agent).filter(Agent.id == agent_uuid).first()`, the
tenant-free lookup used by the webhook handlers. -/
def query_agent_by_id (agents : List Agent) (aid : String) : Option Agent :=
  agents.find? (fun a => a.id == aid)

/-! ### Twilio helpers -/

/-- `TwilioService.validate_phone_number`: non-empty and leading `+`. -/
def validate_phone_number (phone : String) : Bool :=
  if phone == "" || !(pyStartsWith phone "+") then false else true

/-- `validate_twilio_signature` (app/utils/twilio_validation.py), with
the base64 HMAC-SHA1 computation abstracted as the parameter `hmacSig`:
false when the signature header or the auth token is missing, otherwise
a constant-time comparison of the header with the expected signature
over url + body. -/
def validate_twilio_signature (hmacSig : String → String → String)
    (signature : Option String) (url body auth_token : String) : Bool :=
  match signature with
  | none => false
  | some sig =>
      if auth_token = "" then false
      else sig == hmacSig auth_token (url ++ body)

/-- `validate_webrtc_auth`: any non-empty `Authorization` header that
starts with `Bearer ` passes. -/
def validate_webrtc_auth (headers : List (String × String)) : Bool :=
  match headerGet headers "Authorization" with
  | none => false
  | some tok => if tok = "" then false else pyStartsWith tok "Bearer "

/-! ### Voice markup helpers (app/routers/voice.py, voice_processing.py) -/

/-- `_get_twilio_voice` (voice.py): voice-type to Twilio voice table. -/
def _get_twilio_voice (voice_type : Option String) : String :=
  if voice_type == some "male" then "en-US-Neural2-F"
  else if voice_type == some "female" then "en-US-Neural2-E"
  else ""

/-- `_map_voice_type_to_tts` (voice_processing.py): lowercased lookup in
the fixed voice table, defaulting to `alloy`. -/
def _map_voice_type_to_tts (voice_type : String) : String :=
  let k := strLower voice_type
  if k = "male" then "en-US-Neural2-F"
  else if k = "female" then "en-US-Neural2-E"
  else if k = "alloy" then "alloy"
  else if k = "echo" then "echo"
  else if k = "fable" then "fable"
  else if k = "onyx" then "onyx"
  else if k = "nova" then "nova"
  else if k = "shimmer" then "shimmer"
  else "alloy"

/-- `_process_speech_input` (voice.py): the keyword-based reply computed
from the agent and the speech text alone. -/
def _process_speech_input (agent : Option Agent) (speech_text : String) : String :=
  match agent with
  | none => "I heard you say: " ++ speech_text ++ ". How can I help you further?"
  | some a =>
    let speech_lower := strLower speech_text
    if containsAny speech_lower ["hello", "hi", "hey"] then
      "Hello! This is " ++ a.name ++ ". How can I assist you today?"
    else if containsAny speech_lower ["help", "support", "assistance"] then
      "I\x27m here to help! What specific assistance do you need?"
    else if containsAny speech_lower ["thank", "thanks"] then
      "You\x27re welcome! Is there anything else I can help you with?"
    else if containsAny speech_lower ["bye", "goodbye", "end"] then
      "Thank you for calling! Have a great day!"
    else
      "I understand you said: " ++ speech_text ++
        ". Let me help you with that. What would you like me to do?"

/-- `_generate_agent_response` (voice.py) for a found agent: greeting
(fallback response or default), gather, no-input fallback line. -/
def _generate_agent_response (base_url : String) (agent : Agent) : List Verb :=
  let greeting := pyOrStr agent.fallback_response
    ("Hello! This is " ++ agent.name ++ " speaking. How can I help you today?")
  let twilio_voice := _get_twilio_voice agent.voice_type
  [ Verb.say greeting twilio_voice,
    Verb.gatherSpeech 10
      (base_url ++ "/api/v1/voice/webhook/call-events?agentId=" ++ agent.id)
      "Please tell me how I can assist you." twilio_voice,
    Verb.say "I didn\x27t catch that. Let me transfer you to a human agent." twilio_voice ]

/-- `_generate_default_response` (voice.py). -/
def _generate_default_response : List Verb :=
  [ Verb.say "Thank you for calling. An agent will be with you shortly." "",
    Verb.pause 2,
    Verb.say "Please hold while we connect you." "" ]

/-- The TwiML of the speech branch of `handle_call_events_webhook`
(voice.py lines 188-211): the keyword reply (or the agent-less echo
line), a fresh gather, and the no-input fallback line. -/
def speech_branch_verbs (base_url : String) (agent : Option Agent)
    (speech_result : String) : List Verb :=
  match agent with
  | some a =>
      [ Verb.say (_process_speech_input (some a) speech_result) (_get_twilio_voice a.voice_type),
        Verb.gatherSpeech 10
          (base_url ++ "/api/v1/voice/webhook/call-events?agentId=" ++ a.id)
          "Please tell me more about how I can help you." (_get_twilio_voice a.voice_type),
        Verb.say "I didn\x27t catch that. Let me transfer you to a human agent."
          (_get_twilio_voice a.voice_type) ]
  | none =>
      [ Verb.say ("I heard you say: " ++ speech_result ++ ". How can I help you further?") "",
        Verb.gatherSpeech 10
          (base_url ++ "/api/v1/voice/webhook/call-events?agentId=")
          "Please tell me more about how I can help you." "",
        Verb.say "I didn\x27t catch that. Let me transfer you to a human agent." "" ]

/-- Agent resolution of `handle_call_events_webhook` (voice.py lines
164-178): a truthy `agentId` query parameter that parses as a uuid is
looked up tenant-free; every failure yields no agent. -/
def resolve_webhook_agent (agentId : Option String) (agents : List Agent) :
    Option Agent :=
  if pyTruthyStr agentId then
    match agentId with
    | some aid => if isValidUUID aid then query_agent_by_id agents aid else none
    | none => none
  else none

/-- `handle_call_events_webhook` (voice.py).  The Twilio-signature
branch skips validation (the call is commented out in the source);
a failed WebRTC bearer check raises 403, and the handler's `except`
block re-raises, so exceptions propagate (`Except.error`).  The handler
performs no session-store write in any branch, hence the store is
returned unchanged. -/
def call_events_body (base_url : String) (headers : List (String × String))
    (agentId : Option String) (form : List (String × String))
    (agents : List Agent) : Except PyExc WebResponse :=
  let is_twilio := (headerGet headers "X-Twilio-Signature").isSome
  let is_webrtc := (headerGet headers "Authorization").isSome
  if !is_twilio && is_webrtc && !(validate_webrtc_auth headers) then
    .error (.httpException 403 "Invalid WebRTC authentication")
  else
    let call_status := formGet form "CallStatus" ""
    let direction := formGet form "Direction" ""
    let speech_result := formGet form "SpeechResult" ""
    let agent := resolve_webhook_agent agentId agents
    if speech_result ≠ "" then
      .ok ⟨speech_branch_verbs base_url agent speech_result, "application/xml"⟩
    else if call_status = "initiated" && direction = "outbound-api" then
      .ok ⟨[], "application/xml"⟩
    else if call_status = "ringing" && direction = "outbound-api" then
      match agent with
      | some a => .ok ⟨_generate_agent_response base_url a, "application/xml"⟩
      | none =>
          .ok ⟨[ Verb.say "Hello! Thank you for answering our call." "",
                 Verb.say "An agent will be with you shortly." "" ], "application/xml"⟩
    else if call_status = "in-progress" then
      match agent with
      | some a => .ok ⟨_generate_agent_response base_url a, "application/xml"⟩
      | none =>
          .ok ⟨[ Verb.say "Your call is now connected. How can we help you today?" "" ],
               "application/xml"⟩
    else if call_status = "completed" then .ok ⟨[], "application/xml"⟩
    else if call_status = "failed" then .ok ⟨[], "application/xml"⟩
    else if call_status = "busy" then .ok ⟨[], "application/xml"⟩
    else
      .ok ⟨[ Verb.say "Thank you for your call."
               (match agent with | some a => a.name | none => "") ], "application/xml"⟩

/-- The full call-events webhook: store, then response.  The source
function contains no store mutation, so the store passes through. -/
def handle_call_events_webhook (base_url : String) (headers : List (String × String))
    (agentId : Option String) (form : List (String × String))
    (agents : List Agent) (db : List CallSession) :
    List CallSession × Except PyExc WebResponse :=
  (db, call_events_body base_url headers agentId form agents)

/-! ### Voice processing webhook (app/routers/voice_processing.py) -/

/-- Session resolution of `process_voice_input` (lines 67-77): by
`sessionId` when truthy and uuid-shaped, else by the Twilio call sid. -/
def resolve_voice_session (sessionId : Option String) (call_sid : String)
    (db : List CallSession) : Option CallSession :=
  let cs0 : Option CallSession :=
    if pyTruthyStr sessionId then
      match sessionId with
      | some s => if isValidUUID s then get_call_session_by_id db s else none
      | none => none
    else none
  match cs0 with
  | some c => some c
  | none => if call_sid ≠ "" then get_call_session_by_twilio_sid db call_sid else none

/-- Agent resolution of `process_voice_input` (lines 79-89): by the
`agentId` query parameter, falling back to the session's `agent_id`. -/
def resolve_voice_agent (agentId : Option String) (agents : List Agent)
    (call_session : Option CallSession) : Option Agent :=
  let ag0 : Option Agent :=
    if pyTruthyStr agentId then
      match agentId with
      | some aid => if isValidUUID aid then query_agent_by_id agents aid else none
      | none => none
    else none
  match ag0 with
  | some a => some a
  | none =>
    match call_session with
    | some cs => query_agent_by_id agents cs.agent_id
    | none => none

/-- The catch-all fallback of `process_voice_input` (lines 197-202). -/
def tech_difficulties_verbs : List Verb :=
  [ Verb.say "I\x27m sorry, but I\x27m experiencing technical difficulties. Please try again later." "" ]

/-- The no-agent response of `process_voice_input` (lines 91-95). -/
def agent_missing_verbs : List Verb :=
  [ Verb.say "I\x27m sorry, but I couldn\x27t find the agent configuration. Please try again later." "" ]

/-- The please-repeat TwiML of the low-confidence / no-speech branch of
`process_voice_input` (lines 180-195). -/
def low_confidence_verbs (agent : Agent) (call_session : Option CallSession) : List Verb :=
  let sess := match call_session with | some cs => cs.id | none => ""
  [ Verb.say "I didn\x27t catch that clearly. Could you please repeat what you said?" "",
    Verb.gatherSpeech 10
      ("/voice/webhook/voice-process?agentId=" ++ agent.id ++ "&sessionId=" ++ sess)
      "Please speak clearly and try again." "" ]

/-- The success TwiML of `process_voice_input` (lines 136-160): speak
the model reply, gather the next turn, no-input fallback line. -/
def turn_reply_verbs (agent : Agent) (call_session : Option CallSession)
    (ai_response_text : String) : List Verb :=
  let tts_voice := _map_voice_type_to_tts (pyOrStr agent.voice_type "alloy")
  let sess := match call_session with | some cs => cs.id | none => ""
  [ Verb.say ai_response_text tts_voice,
    Verb.gatherSpeech 10
      ("/voice/webhook/voice-process?agentId=" ++ agent.id ++ "&sessionId=" ++ sess)
      "How else can I help you?" tts_voice,
    Verb.say "I didn\x27t hear anything. Please let me know if you need anything else." tts_voice ]

/-- The model-failure TwiML of `process_voice_input` (lines 162-178). -/
def model_error_verbs (agent : Agent) (call_session : Option CallSession) : List Verb :=
  let sess := match call_session with | some cs => cs.id | none => ""
  [ Verb.say "I\x27m sorry, but I\x27m having trouble processing your request right now. Please try again." "",
    Verb.gatherSpeech 10
      ("/voice/webhook/voice-process?agentId=" ++ agent.id ++ "&sessionId=" ++ sess)
      "Please try again." "" ]

/-- The conversation history `process_voice_input` builds (lines
107-117): when the local session value has a non-empty transcript, its
last 6 entries filtered to the user/assistant roles, in order. -/
def conversation_history (call_session : Option CallSession) : List Message :=
  match call_session with
  | some cs =>
    match cs.call_transcript with
    | some t =>
      if t ≠ [] then
        ((listTakeLast t 6).filter
            (fun e => e.role == "user" || e.role == "assistant")).map
          (fun e => ⟨e.role, e.content⟩)
      else []
    | none => []
  | none => []

/-- Result of the embedded `process_voice_input`: the store after the
request, the TwiML response, and the model-adapter requests issued. -/
structure VoiceProcessResult where
  db : List CallSession
  response : WebResponse
  model_calls : List ModelRequest
deriving Repr, DecidableEq

/-- `process_voice_input` (voice_processing.py lines 28-202).  A failed
signature check raises 403 and, like every other exception (an
unparsable `Confidence`, a model-adapter failure), is caught: the outer
`except` returns the technical-difficulties markup, the inner one the
retry markup.  `sig_valid` is the outcome of
`validate_twilio_signature`; `adapter` the model-adapter outcome
consumed by `openai_service.process_agent_conversation`. -/
def process_voice_input (sig_valid : Bool) (agentId sessionId : Option String)
    (form : List (String × String)) (agents : List Agent) (db : List CallSession)
    (adapter : Except Unit (String × ℚ)) (now : Nat) : VoiceProcessResult :=
  if !sig_valid then ⟨db, ⟨tech_difficulties_verbs, "application/xml"⟩, []⟩
  else
    let call_sid := formGet form "CallSid" ""
    let speech_result := formGet form "SpeechResult" ""
    let confidence := formGet form "Confidence" "0"
    let call_session := resolve_voice_session sessionId call_sid db
    match resolve_voice_agent agentId agents call_session with
    | none => ⟨db, ⟨agent_missing_verbs, "application/xml"⟩, []⟩
    | some agent =>
      if speech_result = "" then
        ⟨db, ⟨low_confidence_verbs agent call_session, "application/xml"⟩, []⟩
      else
        match parseFloat? confidence with
        | none => ⟨db, ⟨tech_difficulties_verbs, "application/xml"⟩, []⟩
        | some conf =>
          if 1/2 < conf then
            let db1 :=
              match call_session with
              | some cs => (add_transcript_entry db cs.id "user" speech_result none now).fst
              | none => db
            let history := conversation_history call_session
            let req : ModelRequest :=
              ⟨pyOrStr agent.system_prompt "You are a helpful assistant.",
               history ++ [⟨"user", speech_result⟩]⟩
            match adapter with
            | .ok (ai_response_text, response_time) =>
              let db2 :=
                match call_session with
                | some cs =>
                    (add_transcript_entry db1 cs.id "assistant" ai_response_text
                      (some response_time) now).fst
                | none => db1
              ⟨db2, ⟨turn_reply_verbs agent call_session ai_response_text, "application/xml"⟩, [req]⟩
            | .error _ =>
              ⟨db1, ⟨model_error_verbs agent call_session, "application/xml"⟩, [req]⟩
          else
            ⟨db, ⟨low_confidence_verbs agent call_session, "application/xml"⟩, []⟩

/-- `handle_call_end` (voice_processing.py lines 304-344): resolves the
session by truthy `sessionId` (only then; note the `elif`), else by the
Twilio call sid, updates its status, and always answers with the empty
document; a failed signature check or any other exception also yields
the empty document. -/
def handle_call_end (sig_valid : Bool) (sessionId : Option String)
    (form : List (String × String)) (db : List CallSession) (now : Nat) :
    List CallSession × WebResponse :=
  if !sig_valid then (db, ⟨[], "application/xml"⟩)
  else
    let call_sid := formGet form "CallSid" ""
    let call_status := formGet form "CallStatus" ""
    let db2 :=
      if pyTruthyStr sessionId then
        match sessionId with
        | some s =>
            if isValidUUID s then (update_call_session_status db s call_status now).fst
            else db
        | none => db
      else if call_sid ≠ "" then
        match get_call_session_by_twilio_sid db call_sid with
        | some cs => (update_call_session_status db cs.id call_status now).fst
        | none => db
      else db
    (db2, ⟨[], "application/xml"⟩)

/-! ### Call initiation (app/routers/voice.py lines 29-105) -/

/-- The success payload of `initiate_call`. -/
structure CallInitiateResponse where
  callId : String
  twilioCallSid : String
  callSessionId : String
  status : String
deriving Repr, DecidableEq

/-- Result of the embedded `initiate_call`: the store, the provider
calls placed (`twilio_service.make_call` invocations, by returned sid),
and the HTTP outcome. -/
structure InitiateResult where
  db : List CallSession
  placed_calls : List String
  result : Except PyExc CallInitiateResponse
deriving Repr, DecidableEq

/-- `initiate_call` (voice.py).  The inner `try` turns a uuid parse
failure into a 404; an absent or cross-tenant agent is returned as
`None` by `get_agent_by_id` without raising, so the failure only
surfaces as an `AttributeError` when the webhook URL reads `agent.id`
(after the phone-number check, which raises 400).  The outer
`except Exception` catches every one of these and re-raises it as a 500
carrying `str(e)`.  `provider_sid` is the sid Twilio returns for a
successfully placed call, `new_session_id` the generated session uuid,
`twilio_from` the configured Twilio number. -/
def initiate_call (agents : List Agent) (db : List CallSession)
    (tenant_id user_id : String) (agentId userPhoneNumber : String)
    (twilio_from provider_sid new_session_id : String) (now : Nat) : InitiateResult :=
  if !(isValidUUID agentId) then
    ⟨db, [], .error (.httpException 500
      (excStr (.httpException 404 ("Agent " ++ agentId ++ " not found"))))⟩
  else
    let agent := get_agent_by_id agents agentId tenant_id
    if !(validate_phone_number userPhoneNumber) then
      ⟨db, [], .error (.httpException 500
        (excStr (.httpException 400 "Invalid phone number format. Must start with +")))⟩
    else
      match agent with
      | none =>
        ⟨db, [], .error (.httpException 500
          (excStr (.attributeError "\x27NoneType\x27 object has no attribute \x27id\x27")))⟩
      | some a =>
        let (db2, cs) := create_call_session db new_session_id user_id a.id tenant_id
          (some provider_sid) (some twilio_from) (some userPhoneNumber) now
        ⟨db2, [provider_sid],
          .ok ⟨"call_" ++ strTakeRight provider_sid 8, provider_sid, cs.id, "initiated"⟩⟩

/-! ### Concrete fixtures for witnesses and counterexamples -/

/-- Tenant uuid fixture. -/
def tenantTId : String := "11111111-1111-4111-8111-111111111111"

/-- User uuid fixture. -/
def userUId : String := "22222222-2222-4222-8222-222222222222"

/-- Agent uuid fixture. -/
def agentAId : String := "aaaaaaaa-aaaa-4aaa-8aaa-aaaaaaaaaaaa"

/-- Session uuid fixture. -/
def sessionSId : String := "33333333-3333-4333-8333-333333333333"

/-- A configured agent of tenant `tenantTId`. -/
def agentA : Agent :=
  { id := agentAId, tenant_id := tenantTId, name := "Ava",
    system_prompt := some "Be concise.", voice_type := some "female",
    fallback_response := none }

/-- An active session for Twilio call `CA001`, created at `t = 100`
with an empty transcript. -/
def sessionS : CallSession :=
  { id := sessionSId, user_id := userUId, agent_id := agentAId,
    tenant_id := tenantTId, start_time := 100, end_time := none,
    status := "active", duration := none, call_transcript := some [],
    response_times := some [], twilio_call_sid := some "CA001",
    from_number := some "+15550001111", to_number := some "+15551234567" }

/-- The store holding exactly `sessionS`. -/
def db0 : List CallSession := [sessionS]

/-- A Twilio speech webhook form: `SpeechResult="I need help"`,
`Confidence=0.92`, on call `CA001`. -/
def speechForm : List (String × String) :=
  [("CallSid", "CA001"), ("CallStatus", "in-progress"), ("From", "+15550001111"),
   ("To", "+15551234567"), ("Direction", "outbound-api"),
   ("SpeechResult", "I need help"), ("Confidence", "0.92")]

/-- A terminal-status webhook form for call `CA001`. -/
def completedForm : List (String × String) :=
  [("CallSid", "CA001"), ("CallStatus", "completed"), ("From", "+15550001111"),
   ("To", "+15551234567"), ("Direction", "outbound-api")]

/-- A speech form with confidence exactly `0.5`. -/
def conf05Form : List (String × String) :=
  [("CallSid", "CA001"), ("SpeechResult", "I need help"), ("Confidence", "0.5")]

/-- A speech form with confidence `0.3`. -/
def conf03Form : List (String × String) :=
  [("CallSid", "CA001"), ("SpeechResult", "mumble"), ("Confidence", "0.3")]

/-- The store after a first terminal transition of `sessionS` at
`t = 110`. -/
def terminalDb1 : List CallSession :=
  (update_call_session_status db0 sessionSId "completed" 110).fst

/-- The store after a second terminal transition at the later `t = 125`. -/
def terminalDb2 : List CallSession :=
  (update_call_session_status terminalDb1 sessionSId "completed" 125).fst

/-- Session uuid fixture for the long-transcript session. -/
def sessionLId : String := "44444444-4444-4444-8444-444444444444"

/-- `sessionS` after its first terminal transition at `t = 110`. -/
def sessionSDone : CallSession :=
  { sessionS with status := "completed", end_time := some 110, duration := some 10 }

/-! ### Theorems -/

/-- After persisting an updated row whose id is the one looked up, the
lookup returns the updated row (provided the id was present before). -/
theorem get_after_update (db : List CallSession) (cs cs' : CallSession) (sid : String)
    (h : get_call_session_by_id db sid = some cs) (h2 : cs'.id = sid) :
    get_call_session_by_id (storeUpdate db cs') sid = some cs' := by
  induction db with
  | nil => simp [get_call_session_by_id] at h
  | cons hd tl ih =>
    unfold get_call_session_by_id at h
    unfold get_call_session_by_id storeUpdate
    rw [List.map_cons]
    by_cases hc : hd.id = sid
    · rw [if_pos (beq_iff_eq.mpr (hc.trans h2.symm))]
      exact List.find?_cons_of_pos _ (beq_iff_eq.mpr h2)
    · have hne : hd.id ≠ cs'.id := fun he => hc (he.trans h2)
      rw [if_neg (by simp [hne])]
      rw [List.find?_cons_of_neg _ (by simp [hc])]
      rw [List.find?_cons_of_neg _ (by simp [hc])] at h
      have h' : get_call_session_by_id tl sid = some cs := h
      simpa [get_call_session_by_id, storeUpdate] using ih h'

/-- C4 counterexample: `update_call_session_status` has no
already-terminal check, so a second `"completed"` transition at a later
time overwrites `end_time` (110 becomes 125) and recomputes `duration`
(10 becomes 25), refuting the claim that both keep their post-first-call
values. -/
theorem claim4_terminal_overwrite_counterexample :
    (get_call_session_by_id terminalDb1 sessionSId).bind CallSession.end_time = some 110 ∧
    (get_call_session_by_id terminalDb1 sessionSId).bind CallSession.duration = some 10 ∧
    (get_call_session_by_id terminalDb2 sessionSId).bind CallSession.end_time = some 125 ∧
    (get_call_session_by_id terminalDb2 sessionSId).bind CallSession.duration = some 25 := by
  decide

/-- C4 amended: for any existing session — already terminal or not —
a terminal-status update sets `status`, overwrites `end_time` with the
current time and recomputes `duration = now - start_time`; a
non-terminal status (for example `"active"`) moves the session out of a
terminal state, changing only `status`.  Repeated terminal transitions
are therefore idempotent only when performed at the same timestamp. -/
theorem claim4_amended_update_semantics (db : List CallSession) (sid st : String)
    (now : Nat) (cs : CallSession) (h : get_call_session_by_id db sid = some cs) :
    (st ∈ ["completed", "failed", "busy"] →
      (update_call_session_status db sid st now).snd =
        some { cs with status := st, end_time := some now,
                       duration := some ((now : Int) - (cs.start_time : Int)) }) ∧
    (st ∉ ["completed", "failed", "busy"] →
      (update_call_session_status db sid st now).snd = some { cs with status := st }) := by
  constructor
  · intro hst
    unfold update_call_session_status
    rw [h]
    simp [hst]
  · intro hst
    unfold update_call_session_status
    rw [h]
    simp [hst]

/-- Witness for `claim4_amended_update_semantics`: the second
`"completed"` transition on the already-completed `sessionSDone`
overwrites its end time and duration with the later values. -/
theorem claim4_amended_witness :
    (update_call_session_status terminalDb1 sessionSId "completed" 125).snd =
      some { sessionSDone with
             status := "completed", end_time := some 125, duration := some 25 } := by
  have h := (claim4_amended_update_semantics terminalDb1 sessionSId "completed" 125
    sessionSDone (by decide)).1 (by decide)
  simpa using h

/-- C10: a status update with any status string outside
`{completed, failed, busy}` changes only the `status` field of the
stored session — `end_time`, `duration`, `call_transcript` and
`response_times` keep their values — and the string is accepted without
validation. -/
theorem claim10_nonterminal_update_frame (db : List CallSession) (sid st : String)
    (now : Nat) (cs : CallSession) (h : get_call_session_by_id db sid = some cs)
    (hst : st ∉ ["completed", "failed", "busy"]) :
    update_call_session_status db sid st now =
      (storeUpdate db { cs with status := st }, some { cs with status := st }) := by
  unfold update_call_session_status
  rw [h]
  simp [hst]

/-- Witness for `claim10_nonterminal_update_frame` at the non-terminal
(and unvalidated) status string `"no-answer"`. -/
theorem claim10_witness :
    update_call_session_status db0 sessionSId "no-answer" 150 =
      (storeUpdate db0 { sessionS with status := "no-answer" },
       some { sessionS with status := "no-answer" }) :=
  claim10_nonterminal_update_frame db0 sessionSId "no-answer" 150 sessionS
    (by decide) (by decide)

/-- Evaluation of the embedded `float` parser at `"0.3"`. -/
theorem parseFloat_03 : parseFloat? "0.3" = some (3/10) := by
  have h : "0.3".toList = [Char.ofNat 48, Char.ofNat 46, Char.ofNat 51] := by decide
  rw [parseFloat?, h]
  simp +decide [splitOnChar, digitsVal]

/-- Evaluation of the embedded `float` parser at `"0.5"`. -/
theorem parseFloat_05 : parseFloat? "0.5" = some (1/2) := by
  have h : "0.5".toList = [Char.ofNat 48, Char.ofNat 46, Char.ofNat 53] := by decide
  rw [parseFloat?, h]
  simp +decide [splitOnChar, digitsVal]
  norm_num

/-- Evaluation of the embedded `float` parser at `"0.92"`. -/
theorem parseFloat_092 : parseFloat? "0.92" = some (23/25) := by
  have h : "0.92".toList = [Char.ofNat 48, Char.ofNat 46, Char.ofNat 57, Char.ofNat 50] := by
    decide
  rw [parseFloat?, h]
  simp +decide [splitOnChar, digitsVal]
  norm_num

/-- C2: on a speech input whose parsed confidence is strictly below 0.5
(with the signature valid and an agent resolved), the turn processor
leaves the store untouched (no transcript append), issues no
model-adapter call, and answers with the please-repeat markup carrying
a fresh speech gather. -/
theorem claim2_confidence_gate (agentId sessionId : Option String)
    (form : List (String × String)) (agents : List Agent) (db : List CallSession)
    (adapter : Except Unit (String × ℚ)) (now : Nat) (a : Agent) (q : ℚ)
    (hagent : resolve_voice_agent agentId agents
      (resolve_voice_session sessionId (formGet form "CallSid" "") db) = some a)
    (hspeech : formGet form "SpeechResult" "" ≠ "")
    (hconf : parseFloat? (formGet form "Confidence" "0") = some q)
    (hlow : q < 1/2) :
    process_voice_input true agentId sessionId form agents db adapter now =
      ⟨db, ⟨low_confidence_verbs a
              (resolve_voice_session sessionId (formGet form "CallSid" "") db),
            "application/xml"⟩, []⟩ := by
  have hgt : ¬ ((1 : ℚ)/2 < q) := lt_asymm hlow
  unfold process_voice_input
  simp only [Bool.not_true, Bool.false_eq_true, if_false, hagent, hconf, if_neg hspeech,
    if_neg hgt]

/-- Witness for `claim2_confidence_gate`: the `Confidence=0.3` form on
the existing session leaves the store unchanged, calls no model, and
returns the please-repeat markup. -/
theorem claim2_witness :
    process_voice_input true (some agentAId) (some sessionSId) conf03Form [agentA] db0
        (.ok ("ignored", 1)) 200 =
      ⟨db0, ⟨low_confidence_verbs agentA (some sessionS), "application/xml"⟩, []⟩ := by
  have hs : resolve_voice_session (some sessionSId) (formGet conf03Form "CallSid" "") db0 =
      some sessionS := by decide
  have h := claim2_confidence_gate (some agentAId) (some sessionSId) conf03Form [agentA]
    db0 (.ok ("ignored", 1)) 200 agentA (3/10) (by rw [hs]; decide) (by decide)
    (by rw [show formGet conf03Form "Confidence" "0" = "0.3" from by decide]
        exact parseFloat_03)
    (by norm_num)
  rw [hs] at h
  exact h

/-- The acceptance gate of the turn processor is strict: at confidence
exactly `0.5` the condition `float(confidence) > 0.5` fails, so the
processor takes the please-repeat branch — no store operation, no model
call. -/
theorem confidence_gate_strict_at_boundary :
    process_voice_input true (some agentAId) (some sessionSId) conf05Form [agentA] db0
        (.ok ("Sure.", 1)) 200 =
      ⟨db0, ⟨low_confidence_verbs agentA (some sessionS), "application/xml"⟩, []⟩ := by
  have hs : resolve_voice_session (some sessionSId) (formGet conf05Form "CallSid" "") db0 =
      some sessionS := by decide
  have hagent : resolve_voice_agent (some agentAId) [agentA]
      (resolve_voice_session (some sessionSId) (formGet conf05Form "CallSid" "") db0) =
      some agentA := by rw [hs]; decide
  have hconf : parseFloat? (formGet conf05Form "Confidence" "0") = some (1/2) := by
    rw [show formGet conf05Form "Confidence" "0" = "0.5" from by decide]
    exact parseFloat_05
  have hspeech : formGet conf05Form "SpeechResult" "" ≠ "" := by decide
  have hgt : ¬ ((1 : ℚ)/2 < 1/2) := lt_irrefl _
  unfold process_voice_input
  simp only [Bool.not_true, Bool.false_eq_true, if_false, hagent, hconf, if_neg hspeech,
    if_neg hgt]
  rw [hs]

/-- C3: evaluation of the turn processor at the failing input — a
`Confidence=0.92` speech webhook on the existing session of call
`CA001`, whose transcript and response-time lists are the empty lists
`create_call_session` wrote.  The turn is accepted (the model is called
once and the returned markup speaks the reply with a new gather), yet
the resulting store equals the input store: both in-place `JSONB`
appends are lost, so the transcript gains no `user` entry, no
`assistant` entry and no response-time entry, contrary to the claim and
to `add_transcript_entry`'s own docstring. -/
theorem claim3_lost_append_evaluation :
    process_voice_input true (some agentAId) (some sessionSId) speechForm [agentA] db0
        (.ok ("Sure.", 2)) 300 =
      ⟨db0, ⟨turn_reply_verbs agentA (some sessionS) "Sure.", "application/xml"⟩,
       [⟨"Be concise.", [⟨"user", "I need help"⟩]⟩]⟩ ∧
    get_call_session_by_id db0 sessionSId = some sessionS ∧
    sessionS.call_transcript = some [] ∧ sessionS.response_times = some [] := by
  have hs : resolve_voice_session (some sessionSId) (formGet speechForm "CallSid" "") db0 =
      some sessionS := by decide
  have hagent : resolve_voice_agent (some agentAId) [agentA] (some sessionS) =
      some agentA := by decide
  have hsp : formGet speechForm "SpeechResult" "" = "I need help" := by decide
  have hconf : parseFloat? (formGet speechForm "Confidence" "0") = some (23/25) := by
    rw [show formGet speechForm "Confidence" "0" = "0.92" from by decide]
    exact parseFloat_092
  have hspeech : formGet speechForm "SpeechResult" "" ≠ "" := by decide
  have hhigh : (1 : ℚ)/2 < 23/25 := by norm_num
  have hadd1 : add_transcript_entry db0 sessionS.id "user" "I need help" none 300 =
      (db0, some sessionS) := by decide
  have hadd2 : add_transcript_entry db0 sessionS.id "assistant" "Sure." (some 2) 300 =
      (db0, some sessionS) := by decide
  refine ⟨?_, by decide, by decide, by decide⟩
  unfold process_voice_input
  simp only [Bool.not_true, Bool.false_eq_true, if_false, hs, hagent, hconf,
    if_neg hspeech, if_pos hhigh]
  rw [hsp]
  rw [hadd1]
  dsimp only
  rw [hadd2]
  dsimp only
  decide

/-- C1 counterexample: a speech webhook (`SpeechResult="I need help"`,
`Confidence=0.92`) on the call-events endpoint, with the session for
`CA001` present in the store, is answered with the keyword-based reply
computed from the agent and speech text alone; the store is returned
unchanged and the session transcript is still empty — the dispatcher
neither resolves the session nor invokes the 4.3 turn processor, so the
transcript is not consulted or mutated. -/
theorem claim1_counterexample :
    handle_call_events_webhook "B" [("X-Twilio-Signature", "sig")] (some agentAId)
        speechForm [agentA] db0 =
      (db0, .ok ⟨speech_branch_verbs "B" (some agentA) "I need help", "application/xml"⟩) ∧
    get_call_session_by_id
        (handle_call_events_webhook "B" [("X-Twilio-Signature", "sig")] (some agentAId)
          speechForm [agentA] db0).fst sessionSId = some sessionS ∧
    sessionS.call_transcript = some [] := by
  decide

/-- C1 amended: for every call-events webhook carrying a speech payload
(any call status), the handler resolves only the agent from the request
and returns markup speaking the keyword-based reply computed from the
agent and the speech text, followed by a fresh gather; the session
store passes through unchanged — no session resolution, no transcript
access, no turn-processor invocation. -/
theorem claim1_amended_speech_keyword_branch (base_url : String)
    (headers : List (String × String)) (agentId : Option String)
    (form : List (String × String)) (agents : List Agent) (db : List CallSession)
    (a : Agent)
    (hsig : (headerGet headers "X-Twilio-Signature").isSome = true)
    (hspeech : formGet form "SpeechResult" "" ≠ "")
    (hagent : resolve_webhook_agent agentId agents = some a) :
    handle_call_events_webhook base_url headers agentId form agents db =
      (db, .ok ⟨speech_branch_verbs base_url (some a) (formGet form "SpeechResult" ""),
                "application/xml"⟩) := by
  unfold handle_call_events_webhook call_events_body
  simp only [hsig, hagent, Bool.not_true, Bool.false_and, Bool.false_eq_true, if_false,
    if_pos hspeech]

/-- Witness for `claim1_amended_speech_keyword_branch` at the concrete
speech webhook on call `CA001`. -/
theorem claim1_amended_witness :
    handle_call_events_webhook "B" [("X-Twilio-Signature", "t")] (some agentAId) speechForm
        [agentA] db0 =
      (db0, .ok ⟨speech_branch_verbs "B" (some agentA) "I need help", "application/xml"⟩) := by
  have h := claim1_amended_speech_keyword_branch "B" [("X-Twilio-Signature", "t")]
    (some agentAId) speechForm [agentA] db0 agentA (by decide) (by decide) (by decide)
  rw [show formGet speechForm "SpeechResult" "" = "I need help" from by decide] at h
  exact h

/-- Characterisation of `update_call_session_status` on a found session
and a terminal status: status set, `end_time` overwritten with `now`,
`duration` recomputed. -/
theorem update_status_terminal (db : List CallSession) (sid st : String) (now : Nat)
    (cs : CallSession) (h : get_call_session_by_id db sid = some cs)
    (hst : st ∈ ["completed", "failed", "busy"]) :
    update_call_session_status db sid st now =
      (storeUpdate db { cs with
         status := st, end_time := some now,
         duration := some ((now : Int) - (cs.start_time : Int)) },
       some { cs with
         status := st, end_time := some now,
         duration := some ((now : Int) - (cs.start_time : Int)) }) := by
  unfold update_call_session_status
  rw [h]
  simp [hst]

/-- C5 amended: the call-events webhook acknowledges a terminal
`CallStatus` with the empty document without resolving or transitioning
any session (the store passes through unchanged); the terminal
transition instead lives on the separate call-end webhook, which
resolves the session by `sessionId` when that query parameter is truthy
(only then; note the `elif`) and otherwise by the Twilio call sid, sets
`status`, `end_time = now` and `duration = now - startTime`, and
answers with the empty document. -/
theorem claim5_amended_terminal_handling (base_url : String)
    (headers : List (String × String)) (agentId sessionId : Option String)
    (form : List (String × String)) (agents : List Agent) (db : List CallSession)
    (cs : CallSession) (now : Nat)
    (hterm : formGet form "CallStatus" "" ∈ ["completed", "failed", "busy"]) :
    ((headerGet headers "X-Twilio-Signature").isSome = true →
      formGet form "SpeechResult" "" = "" →
      handle_call_events_webhook base_url headers agentId form agents db =
        (db, .ok ⟨[], "application/xml"⟩)) ∧
    (∀ sid : String, sessionId = some sid → pyTruthyStr sessionId = true →
      isValidUUID sid = true →
      get_call_session_by_id db sid = some cs →
      handle_call_end true sessionId form db now =
        (storeUpdate db { cs with
           status := formGet form "CallStatus" "",
           end_time := some now, duration := some ((now : Int) - (cs.start_time : Int)) },
         ⟨[], "application/xml"⟩)) ∧
    (pyTruthyStr sessionId = false → formGet form "CallSid" "" ≠ "" →
      get_call_session_by_twilio_sid db (formGet form "CallSid" "") = some cs →
      get_call_session_by_id db cs.id = some cs →
      handle_call_end true sessionId form db now =
        (storeUpdate db { cs with
           status := formGet form "CallStatus" "",
           end_time := some now, duration := some ((now : Int) - (cs.start_time : Int)) },
         ⟨[], "application/xml"⟩)) := by
  refine ⟨?_, ?_, ?_⟩
  · intro hsig hsp
    unfold handle_call_events_webhook call_events_body
    simp only [List.mem_cons, List.not_mem_nil, or_false] at hterm
    rcases hterm with h | h | h <;>
      simp +decide [hsig, h, not_not_intro hsp]
  · intro sid hsid htr huuid hfound
    subst hsid
    unfold handle_call_end
    simp only [Bool.not_true, Bool.false_eq_true, if_false, htr, if_true, huuid,
      update_status_terminal db sid (formGet form "CallStatus" "") now cs hfound hterm]
  · intro htr hcsid hbysid hbyid
    unfold handle_call_end
    simp only [Bool.not_true, Bool.false_eq_true, if_false, htr, if_neg hcsid, hbysid,
      if_pos hcsid,
      update_status_terminal db cs.id (formGet form "CallStatus" "") now cs hbyid hterm]

/-- C5 counterexample: a `CallStatus=completed` webhook on the
call-events endpoint for the `active` session of call `CA001` answers
with the empty document but leaves the store unchanged: the session is
still `active` with no `end_time` and no `duration`, refuting the claim
that this dispatcher performs the terminal transition. -/
theorem claim5_counterexample :
    handle_call_events_webhook "B" [("X-Twilio-Signature", "sig5")] (some agentAId)
        completedForm [agentA] db0 =
      (db0, .ok ⟨[], "application/xml"⟩) ∧
    get_call_session_by_id
        (handle_call_events_webhook "B" [("X-Twilio-Signature", "sig5")] (some agentAId)
          completedForm [agentA] db0).fst sessionSId = some sessionS ∧
    sessionS.status = "active" ∧ sessionS.end_time = none ∧ sessionS.duration = none := by
  decide

/-- Witness for `claim5_amended_terminal_handling`: the concrete
completed-status form acknowledged by the call-events webhook, and the
call-end webhook transitioning the session resolved by Twilio call sid
at `t = 400`. -/
theorem claim5_amended_witness :
    handle_call_events_webhook "B" [("X-Twilio-Signature", "u")] (some agentAId)
        completedForm [agentA] db0 = (db0, .ok ⟨[], "application/xml"⟩) ∧
    handle_call_end true none completedForm db0 400 =
      (storeUpdate db0 { sessionS with
         status := "completed", end_time := some 400, duration := some 300 },
       ⟨[], "application/xml"⟩) := by
  have h := claim5_amended_terminal_handling "B" [("X-Twilio-Signature", "u")]
    (some agentAId) none completedForm [agentA] db0 sessionS 400 (by decide)
  refine ⟨h.1 (by decide) (by decide), ?_⟩
  have h3 := h.2.2 (by decide) (by decide) (by decide) (by decide)
  rw [show formGet completedForm "CallStatus" "" = "completed" from by decide] at h3
  exact h3

/-- C6: the call-events webhook acts on a delivery whose Twilio
signature cannot be valid.  With `X-Twilio-Signature: totally-bogus`
the speech payload is processed and answered with 200 markup (no 403,
no rejection), and the result is identical under a different signature
value — the header's value is never consulted, the call to
`validate_twilio_signature` being commented out in the handler; the
(implemented but unused) validator itself rejects the bogus signature. -/
theorem claim6_signature_not_validated :
    handle_call_events_webhook "B" [("X-Twilio-Signature", "totally-bogus")] (some agentAId)
        speechForm [agentA] db0 =
      (db0, .ok ⟨speech_branch_verbs "B" (some agentA) "I need help", "application/xml"⟩) ∧
    handle_call_events_webhook "B" [("X-Twilio-Signature", "another-value")] (some agentAId)
        speechForm [agentA] db0 =
      handle_call_events_webhook "B" [("X-Twilio-Signature", "totally-bogus")] (some agentAId)
        speechForm [agentA] db0 ∧
    validate_twilio_signature (fun _ _ => "expected-signature") (some "totally-bogus")
        "B/api/v1/voice/webhook/call-events" "CallSid=CA001" "auth-token" = false := by
  decide

/-- C8 counterexample: a call-events delivery bearing a non-Bearer
`Authorization` header makes the handler raise a 403 which its `except`
block re-raises: the embedded result is an error, not a voice-markup
response — refuting the claim that every webhook response is a
well-formed voice-markup document and that no unhandled exception
surfaces. -/
theorem claim8_counterexample :
    (handle_call_events_webhook "B" [("Authorization", "Basic xyz")] (some agentAId)
        speechForm [agentA] db0).snd =
      .error (.httpException 403 "Invalid WebRTC authentication") := by
  decide

/-- C8 amended: the voice-process webhook is total — every delivery,
including failed signature checks, unparsable confidence values and
model-adapter failures, is answered with voice markup of content type
`application/xml`; the call-end webhook always answers with the empty
document in `application/xml`; the call-events webhook answers with
`application/xml` markup whenever it answers at all, but re-raises
exceptions (such as the 403 on failed WebRTC authentication) instead of
converting them to markup. -/
theorem claim8_amended_boundary_behavior :
    (∀ (sig_valid : Bool) (agentId sessionId : Option String)
        (form : List (String × String)) (agents : List Agent) (db : List CallSession)
        (adapter : Except Unit (String × ℚ)) (now : Nat),
      (process_voice_input sig_valid agentId sessionId form agents db
          adapter now).response.media_type = "application/xml") ∧
    (∀ (sig_valid : Bool) (sessionId : Option String) (form : List (String × String))
        (db : List CallSession) (now : Nat),
      (handle_call_end sig_valid sessionId form db now).snd = ⟨[], "application/xml"⟩) ∧
    (∀ (base_url : String) (headers : List (String × String)) (agentId : Option String)
        (form : List (String × String)) (agents : List Agent) (r : WebResponse),
      call_events_body base_url headers agentId form agents = .ok r →
      r.media_type = "application/xml") := by
  refine ⟨?_, ?_, ?_⟩
  · intro sig_valid agentId sessionId form agents db adapter now
    unfold process_voice_input
    dsimp only
    repeat' split
    all_goals rfl
  · intro sig_valid sessionId form db now
    unfold handle_call_end
    dsimp only
    repeat' split
    all_goals rfl
  · intro base_url headers agentId form agents r h
    unfold call_events_body at h
    dsimp only at h
    repeat' split at h
    all_goals first
      | exact Except.noConfusion h
      | (injection h with h2; subst h2; rfl)

/-- Witness for `claim8_amended_boundary_behavior`: an unparsable
`Confidence` value is converted to the technical-difficulties markup in
`application/xml` (first conjunct), the call-end webhook acknowledges
with the empty document even on a failed signature (second conjunct),
and a successful call-events response carries `application/xml` (third
conjunct). -/
theorem claim8_amended_witness :
    (process_voice_input true (some agentAId) (some sessionSId)
        [("CallSid", "CA001"), ("SpeechResult", "hello"), ("Confidence", "abc")]
        [agentA] db0 (.ok ("x", 1)) 200).response.media_type = "application/xml" ∧
    (handle_call_end false none completedForm db0 400).snd = ⟨[], "application/xml"⟩ ∧
    (⟨[], "application/xml"⟩ : WebResponse).media_type = "application/xml" := by
  refine ⟨claim8_amended_boundary_behavior.1 true (some agentAId) (some sessionSId)
      [("CallSid", "CA001"), ("SpeechResult", "hello"), ("Confidence", "abc")]
      [agentA] db0 (.ok ("x", 1)) 200,
    claim8_amended_boundary_behavior.2.1 false none completedForm db0 400,
    claim8_amended_boundary_behavior.2.2 "B" [("X-Twilio-Signature", "w")] (some agentAId)
      completedForm [agentA] ⟨[], "application/xml"⟩ (by decide)⟩

/-- C9 counterexample: call initiation with an existing agent of the
right tenant but the malformed number `"12345"` fails with a 500 whose
detail wraps the 400 — the catch-all `except Exception` in
`initiate_call` re-raises every inner `HTTPException` as a 500, so no
400-equivalent (nor 404-equivalent) ever reaches the caller. -/
theorem claim9_counterexample :
    initiate_call [agentA] [] tenantTId userUId agentAId "12345" "+15550001111" "CA900"
        "55555555-5555-4555-8555-555555555555" 100 =
      ⟨[], [],
       .error (.httpException 500 "400: Invalid phone number format. Must start with +")⟩ := by
  decide

/-- C9 amended: every initiation failure surfaces as a 500 carrying
`str(e)` of the inner error — a malformed agent id wraps the 404
detail, a malformed destination number (empty or without a leading `+`)
wraps the 400 detail, and an absent or cross-tenant agent id that does
parse as a uuid surfaces as the attribute error raised when the webhook
URL reads `agent.id`; in all three failure cases no provider call is
placed and no call session is created. -/
theorem claim9_amended_initiation_failures (agents : List Agent) (db : List CallSession)
    (tenant_id user_id agentId phone twilio_from provider_sid new_session_id : String)
    (now : Nat) :
    (isValidUUID agentId = false →
      initiate_call agents db tenant_id user_id agentId phone twilio_from provider_sid
          new_session_id now =
        ⟨db, [], .error (.httpException 500
          (excStr (.httpException 404 ("Agent " ++ agentId ++ " not found"))))⟩) ∧
    (isValidUUID agentId = true → validate_phone_number phone = false →
      initiate_call agents db tenant_id user_id agentId phone twilio_from provider_sid
          new_session_id now =
        ⟨db, [], .error (.httpException 500
          (excStr (.httpException 400 "Invalid phone number format. Must start with +")))⟩) ∧
    (isValidUUID agentId = true → validate_phone_number phone = true →
      get_agent_by_id agents agentId tenant_id = none →
      initiate_call agents db tenant_id user_id agentId phone twilio_from provider_sid
          new_session_id now =
        ⟨db, [], .error (.httpException 500
          (excStr (.attributeError
            "\x27NoneType\x27 object has no attribute \x27id\x27")))⟩) := by
  refine ⟨?_, ?_, ?_⟩
  · intro h
    unfold initiate_call
    simp only [h, Bool.not_false, if_true]
  · intro h hp
    unfold initiate_call
    simp only [h, hp, Bool.not_true, Bool.not_false, Bool.false_eq_true, if_false, if_true]
  · intro h hp hagent
    unfold initiate_call
    simp only [h, hp, hagent, Bool.not_true, Bool.false_eq_true, if_false]

/-- Witness for `claim9_amended_initiation_failures`: the three
concrete failures — agent id `"not-a-uuid"`, a valid agent with number
`"12345"`, and an unknown (but uuid-shaped) agent id with a valid
number — each yield a 500 with the wrapped detail, an unchanged store
and no provider call. -/
theorem claim9_amended_witness :
    initiate_call [agentA] [] tenantTId userUId "not-a-uuid" "+15551234567" "+15550001111"
        "CA900" "55555555-5555-4555-8555-555555555555" 100 =
      ⟨[], [], .error (.httpException 500
        (excStr (.httpException 404 ("Agent " ++ "not-a-uuid" ++ " not found"))))⟩ ∧
    initiate_call [agentA] [] tenantTId userUId agentAId "12345" "+15550001111" "CA900"
        "55555555-5555-4555-8555-555555555555" 100 =
      ⟨[], [], .error (.httpException 500
        (excStr (.httpException 400 "Invalid phone number format. Must start with +")))⟩ ∧
    initiate_call [agentA] [] tenantTId userUId sessionLId "+15551234567" "+15550001111"
        "CA900" "55555555-5555-4555-8555-555555555555" 100 =
      ⟨[], [], .error (.httpException 500
        (excStr (.attributeError "\x27NoneType\x27 object has no attribute \x27id\x27")))⟩ := by
  refine ⟨(claim9_amended_initiation_failures [agentA] [] tenantTId userUId "not-a-uuid"
      "+15551234567" "+15550001111" "CA900" "55555555-5555-4555-8555-555555555555" 100).1
      (by decide),
    (claim9_amended_initiation_failures [agentA] [] tenantTId userUId agentAId "12345"
      "+15550001111" "CA900" "55555555-5555-4555-8555-555555555555" 100).2.1
      (by decide) (by decide),
    (claim9_amended_initiation_failures [agentA] [] tenantTId userUId sessionLId
      "+15551234567" "+15550001111" "CA900" "55555555-5555-4555-8555-555555555555" 100).2.2
      (by decide) (by decide) (by decide)⟩
